import Mathlib

/-!
Verification of the Exa MCP client module: SSE response decoding
(`parseSSEResponse`), text-content extraction (`extractTextContent`), the
transport wrapper (`callExa`) and the request-id counter.

The JavaScript runtime's `JSON.parse` is external to the module, so it is
modelled as an oracle parameter: a predicate telling which strings parse as
valid JSON, and (for `callExa`) a partial decoding function.  The TypeScript
code casts the value produced by `JSON.parse` to `ExaResponse` without any
validation, so a successful parse is exactly a `some` result of the oracle.

Strings in JavaScript are split and indexed by UTF-16 code units; all the
fixed markers involved ("data: ", "\n") are ASCII, so code-unit operations
coincide with the character-level operations used here.
-/

namespace ExaClient

/-- Timeout constant from the source: `REQUEST_TIMEOUT_MS = 30_000`. -/
def REQUEST_TIMEOUT_MS : Nat := 30000

/-- The test `line.startsWith("data: ")` from the source loop: the fixed
marker `data:` followed by one space is a prefix of the line. -/
def isDataLine (l : String) : Bool := "data: ".data.isPrefixOf l.data

/-- The payload extraction `line.substring(6)` from the source loop: drop the
six code units of the marker-and-space prefix. -/
def stripData (l : String) : String := ⟨l.data.drop 6⟩

/-- The candidate-collecting loop of `parseSSEResponse`: for each line in
order, push the stripped payload when the line starts with the marker. -/
def collectData : List String → List String
  | [] => []
  | l :: ls => if isDataLine l then stripData l :: collectData ls else collectData ls

/-- The line split `text.split("\n")` from the source: split on every
newline character, keeping empty pieces. -/
def splitLines (text : String) : List String :=
  (text.data.splitOn '\n').map List.asString

/-- The ordered candidate list built by `parseSSEResponse` before scanning. -/
def dataLines (text : String) : List String := collectData (splitLines text)

/-- The downward scan of `parseSSEResponse`: the loop walks the candidate
indices from last to first and returns the first candidate accepted by
`JSON.parse`, i.e. the last valid candidate of the list. -/
def lastValid (isValidJson : String → Bool) : List String → Option String
  | [] => none
  | d :: ds =>
    match lastValid isValidJson ds with
    | some s => some s
    | none => if isValidJson d then some d else none

/-- `parseSSEResponse` from the source.  A thrown `Error` is modelled as an
`Except.error` carrying the thrown message.  `dataLines.join("")` is the
concatenation of all candidates in order. -/
def parseSSEResponse (isValidJson : String → Bool) (text : String) :
    Except String String :=
  let dls := dataLines text
  if dls.isEmpty then .error "No data: field found in SSE response"
  else
    match lastValid isValidJson dls with
    | some s => .ok s
    | none => .ok (String.join dls)

/-- A content item of a result: `{ type: string; text: string }`. -/
structure ContentItem where
  type : String
  text : String
  deriving DecidableEq

/-- The error object of a failure envelope: integer code and message. -/
structure ErrorObj where
  code : Int
  message : String
  deriving DecidableEq

/-- A remote-tool descriptor of a result (the `inputSchema` field is opaque
to this client and omitted). -/
structure ToolDescriptor where
  name : String
  description : String
  deriving DecidableEq

/-- The `result` object of a success envelope: optional content list and
optional tool list. -/
structure ResultObj where
  content : Option (List ContentItem)
  tools : Option (List ToolDescriptor)
  deriving DecidableEq

/-- Decoded response envelope.  The TypeScript union `ExaResponse` is
discriminated at run time only by field presence (`"error" in response`), so
the embedding keeps both the `error` and `result` fields optional: a raw
decoded object can carry either, neither, or both. -/
structure ExaResponse where
  id : Int
  error : Option ErrorObj
  result : Option ResultObj
  deriving DecidableEq

/-- `extractTextContent` from the source.  The `"error" in response` check
comes first; then `result?.content` is demanded (absent `result` or absent
`content` both throw), and the surviving content list is filtered to items
whose type tag is `"text"` and their texts joined with `"\n\n"`.  Thrown
`Error`s are modelled as `Except.error` carrying the thrown message. -/
def extractTextContent (response : ExaResponse) : Except String String :=
  match response.error with
  | some e =>
    .error ("Exa API error: " ++ toString e.code ++ " - " ++ e.message)
  | none =>
    match response.result.bind ResultObj.content with
    | none => .error "No content in response"
    | some content =>
      .ok (String.intercalate "\n\n"
        ((content.filter fun item => item.type == "text").map ContentItem.text))

/-- Outcome of the awaited `fetchFn` exchange inside `callExa`: a response
(status, status text and body text), an `AbortError` raised because the
30-second deadline fired and cancelled the exchange, or any other rejection
carrying a message. -/
inductive FetchOutcome where
  | response (status : Nat) (statusText : String) (body : String)
  | abort
  | failure (message : String)

/-- `Response.ok` of fetch: the status lies in the inclusive range 200-299. -/
def responseOk (status : Nat) : Bool := decide (200 ≤ status ∧ status < 300)

/-- Errors surfaced by `callExa`: either an `Error` thrown with a message the
source constructs (HTTP error, timeout, the SSE decoder's error, or a
rethrown rejection), or the `SyntaxError` of the final `JSON.parse`, whose
message text is engine-defined and therefore kept as the offending input. -/
inductive CallError where
  | thrown (message : String)
  | jsonSyntaxError (input : String)
  deriving DecidableEq

/-- `callExa` from the source, after the request envelope is built: the fetch
outcome and the `JSON.parse` decoding are inputs.  The body is parsed as JSON
first; on failure `parseSSEResponse` runs (its validity oracle is the same
`JSON.parse`) and its result is parsed again.  The catch clause converts an
`AbortError` into the timeout message built from `REQUEST_TIMEOUT_MS / 1000`
and rethrows everything else unchanged. -/
def callExa (jsonParse : String → Option ExaResponse) (outcome : FetchOutcome) :
    Except CallError ExaResponse :=
  match outcome with
  | .abort =>
    .error (.thrown
      ("Exa request timed out after " ++ toString (REQUEST_TIMEOUT_MS / 1000) ++ "s"))
  | .failure msg => .error (.thrown msg)
  | .response status statusText body =>
    if responseOk status then
      match jsonParse body with
      | some r => .ok r
      | none =>
        match parseSSEResponse (fun s => (jsonParse s).isSome) body with
        | .error e => .error (.thrown e)
        | .ok jsonData =>
          match jsonParse jsonData with
          | some r => .ok r
          | none => .error (.jsonSyntaxError jsonData)
    else
      .error (.thrown ("HTTP error: " ++ toString status ++ " " ++ statusText))

/-- Request envelope `ExaRequest`, with the `params` map kept abstract. -/
structure ExaRequest (P : Type) where
  jsonrpc : String
  id : Nat
  method : String
  params : Option P

/-- The envelope construction at the top of `callExa`:
`const requestId = ++requestIdCounter` pre-increments the module-level
counter and the new value becomes the envelope's id.  The counter is the only
state a call reads or writes, so the embedding threads exactly it. -/
def buildRequest {P : Type} (counter : Nat) (method : String) (params : Option P) :
    Nat × ExaRequest P :=
  let requestId := counter + 1
  (requestId, { jsonrpc := "2.0", id := requestId, method := method, params := params })

/-- A sequence of calls within one process lifetime: each call builds its
envelope from the counter left by the previous one.  Returns the final
counter and the envelopes in call order.  `requestIdCounter` starts at 0, so
a whole-process run is `runCalls 0`. -/
def runCalls {P : Type} (counter : Nat) :
    List (String × Option P) → Nat × List (ExaRequest P)
  | [] => (counter, [])
  | (m, p) :: rest =>
    let step := buildRequest counter m p
    let next := runCalls step.1 rest
    (next.1, step.2 :: next.2)

/-- Substring containment, used to state the literal-matchable-substring
requirements on error messages. -/
def strContains (s sub : String) : Prop := ∃ pre post : String, s = pre ++ sub ++ post

/-! ### Helper lemmas -/

theorem collectData_eq_filter_map (ls : List String) :
    collectData ls = (ls.filter isDataLine).map stripData := by
  induction ls with
  | nil => rfl
  | cons l ls ih => cases h : isDataLine l <;> simp [collectData, h, ih, List.filter_cons]

theorem stripData_of_isDataLine (l : String) (h : isDataLine l = true) :
    "data: " ++ stripData l = l := by
  have hp : "data: ".data <+: l.data := by
    simpa [isDataLine] using h
  obtain ⟨t, ht⟩ := hp
  apply String.ext
  show "data: ".data ++ l.data.drop 6 = l.data
  rw [← ht]
  congr 1

theorem isDataLine_event_false (s : String) : isDataLine ("event:" ++ s) = false := by
  rw [Bool.eq_false_iff]
  intro h
  simp only [isDataLine, List.isPrefixOf_iff_prefix] at h
  obtain ⟨t, ht⟩ := h
  have h1 : ("data: ".data ++ t).head? = some 'd' := rfl
  rw [ht] at h1
  have h2 : (("event:" ++ s).data).head? = some 'e' := rfl
  rw [h2] at h1
  exact absurd h1 (by decide)

theorem lastValid_eq_none_of_all_false (p : String → Bool) (l : List String) :
    (∀ x ∈ l, p x = false) → lastValid p l = none := by
  induction l with
  | nil => intro _; rfl
  | cons d ds ih =>
    intro h
    have hds := ih fun x hx => h x (List.mem_cons_of_mem d hx)
    have hd := h d (List.mem_cons_self d ds)
    simp [lastValid, hds, hd]

theorem lastValid_append_cons (p : String → Bool) (l₁ l₂ : List String) (c : String)
    (hc : p c = true) (h₂ : ∀ x ∈ l₂, p x = false) :
    lastValid p (l₁ ++ c :: l₂) = some c := by
  induction l₁ with
  | nil =>
    have h2 := lastValid_eq_none_of_all_false p l₂ h₂
    simp [lastValid, h2, hc]
  | cons a l₁ ih => simp [lastValid, ih]

theorem parseSSE_error_of_nil (p : String → Bool) (text : String)
    (h : dataLines text = []) :
    parseSSEResponse p text = .error "No data: field found in SSE response" := by
  simp [parseSSEResponse, h]

theorem parseSSE_ok_of_ne_nil (p : String → Bool) (text : String)
    (h : dataLines text ≠ []) :
    ∃ s, parseSSEResponse p text = .ok s := by
  have hempty : (dataLines text).isEmpty = false := by
    simpa [List.isEmpty_iff] using h
  cases hl : lastValid p (dataLines text) with
  | some s => exact ⟨s, by simp [parseSSEResponse, hempty, hl]⟩
  | none => exact ⟨String.join (dataLines text), by simp [parseSSEResponse, hempty, hl]⟩

theorem runCalls_map_id {P : Type} (c : Nat) (calls : List (String × Option P)) :
    (runCalls c calls).2.map (fun r => r.id) = List.range' (c + 1) calls.length := by
  induction calls generalizing c with
  | nil => rfl
  | cons mp rest ih =>
    obtain ⟨m, p⟩ := mp
    simp [runCalls, buildRequest, ih, List.range'_succ]

/-! ### Claim theorems -/

/-- Claim C1: when the candidate list decomposes as `l₁ ++ c :: l₂` with `c`
valid JSON and every later candidate invalid, `parseSSEResponse` returns `c`
— the last candidate in original order that parses, even when unparseable
candidates follow it.  The single-valid-data-line case is the instance
`l₁ = l₂ = []`. -/
theorem parseSSE_returns_last_valid (isJson : String → Bool) (text : String)
    (l₁ l₂ : List String) (c : String)
    (hsplit : dataLines text = l₁ ++ c :: l₂)
    (hc : isJson c = true)
    (hafter : ∀ x ∈ l₂, isJson x = false) :
    parseSSEResponse isJson text = .ok c := by
  have hlv : lastValid isJson (dataLines text) = some c := by
    rw [hsplit]
    exact lastValid_append_cons isJson l₁ l₂ c hc hafter
  have hne : (dataLines text).isEmpty = false := by
    rw [hsplit]; simp
  simp [parseSSEResponse, hne, hlv]

/-- Witness for C1: a body with exactly one `data:` line holding valid JSON
(under the oracle accepting `"1"`) decodes to exactly that payload. -/
theorem parseSSE_returns_last_valid_witness :
    parseSSEResponse (fun s => s == "1") "event: message\ndata: 1\n\n" = .ok "1" :=
  parseSSE_returns_last_valid (fun s => s == "1") "event: message\ndata: 1\n\n"
    [] [] "1" rfl rfl (by simp)

/-- Claim C2: the candidate list is exactly the lines beginning with the
fixed marker-and-space prefix `"data: "`, each with that prefix stripped, in
original line order; any line with a data-line prefix is its stripped payload
re-prefixed, and lines with other SSE framing fields such as `event:` never
pass the prefix test. -/
theorem dataLines_candidates (text : String) :
    dataLines text = ((splitLines text).filter isDataLine).map stripData
    ∧ (∀ l, isDataLine l = true → "data: " ++ stripData l = l)
    ∧ (∀ s, isDataLine ("event:" ++ s) = false) :=
  ⟨collectData_eq_filter_map (splitLines text),
   stripData_of_isDataLine,
   isDataLine_event_false⟩

/-- Witness for C2 at a concrete body: the filter-map characterization, the
strip property on the data line, and the exclusion of the event line. -/
theorem dataLines_candidates_witness :
    dataLines "event: m\ndata: 1\n"
      = ((splitLines "event: m\ndata: 1\n").filter isDataLine).map stripData
    ∧ "data: " ++ stripData "data: 1" = "data: 1"
    ∧ isDataLine ("event:" ++ " m") = false :=
  ⟨(dataLines_candidates "event: m\ndata: 1\n").1,
   (dataLines_candidates "event: m\ndata: 1\n").2.1 "data: 1" rfl,
   (dataLines_candidates "event: m\ndata: 1\n").2.2 " m"⟩

/-- Claim C6: when the candidate list is non-empty but no candidate is valid
JSON, `parseSSEResponse` returns the concatenation of all candidates in
original order instead of failing. -/
theorem parseSSE_concat_fallback (isJson : String → Bool) (text : String)
    (hne : dataLines text ≠ [])
    (hnone : ∀ x ∈ dataLines text, isJson x = false) :
    parseSSEResponse isJson text = .ok (String.join (dataLines text)) := by
  have hlv := lastValid_eq_none_of_all_false isJson (dataLines text) hnone
  have hempty : (dataLines text).isEmpty = false := by
    simpa [List.isEmpty_iff] using hne
  simp [parseSSEResponse, hempty, hlv]

/-- Witness for C6: two unparseable data lines concatenate in order. -/
theorem parseSSE_concat_fallback_witness :
    parseSSEResponse (fun _ => false) "data: a\ndata: b\n"
      = .ok (String.join (dataLines "data: a\ndata: b\n")) :=
  parseSSE_concat_fallback (fun _ => false) "data: a\ndata: b\n" (by decide) (by decide)

/-- Claim C7: `parseSSEResponse` fails exactly when the body yields zero
data-line candidates, the only failure is the `No data:` message, and with at
least one candidate it always returns a string. -/
theorem parseSSE_fails_iff_no_candidates (isJson : String → Bool) (text : String) :
    ((∃ e, parseSSEResponse isJson text = .error e) ↔ dataLines text = [])
    ∧ (∀ e, parseSSEResponse isJson text = .error e →
        e = "No data: field found in SSE response")
    ∧ (dataLines text ≠ [] → ∃ s, parseSSEResponse isJson text = .ok s) := by
  by_cases h : dataLines text = []
  · have he := parseSSE_error_of_nil isJson text h
    refine ⟨⟨fun _ => h, fun _ => ⟨_, he⟩⟩, ?_, fun hne => absurd h hne⟩
    intro e hee
    rw [he] at hee
    exact (Except.error.inj hee).symm
  · obtain ⟨s, hs⟩ := parseSSE_ok_of_ne_nil isJson text h
    refine ⟨⟨?_, fun hh => absurd hh h⟩, ?_, fun _ => ⟨s, hs⟩⟩
    · rintro ⟨e, he⟩
      rw [hs] at he
      exact absurd he (by simp)
    · intro e he
      rw [hs] at he
      exact absurd he (by simp)

/-- Witness for C7: a body with no data line fails with the `No data:`
message; a body with one data line returns a string. -/
theorem parseSSE_fails_iff_no_candidates_witness :
    parseSSEResponse (fun _ => false) "event: m\n"
      = .error "No data: field found in SSE response"
    ∧ ∃ s, parseSSEResponse (fun _ => false) "data: 1\n" = .ok s := by
  constructor
  · obtain ⟨e, he⟩ :=
      (parseSSE_fails_iff_no_candidates (fun _ => false) "event: m\n").1.mpr rfl
    have hmsg := (parseSSE_fails_iff_no_candidates (fun _ => false) "event: m\n").2.1 e he
    rw [hmsg] at he
    exact he
  · exact (parseSSE_fails_iff_no_candidates (fun _ => false) "data: 1\n").2.2 (by decide)

/-- Claim C3: on a Success-variant envelope (no error field) whose result
object is present, extraction fails with the `No content` condition exactly
when the content field is absent; a present-but-empty content list instead
yields the empty string. -/
theorem extract_noContent_iff (r : ExaResponse) (res : ResultObj)
    (herr : r.error = none) (hres : r.result = some res) :
    (extractTextContent r = .error "No content in response" ↔ res.content = none)
    ∧ (res.content = some [] → extractTextContent r = .ok "") := by
  refine ⟨?_, ?_⟩
  · cases hc : res.content with
    | none => simp [extractTextContent, herr, hres, hc]
    | some items => simp [extractTextContent, herr, hres, hc]
  · intro h
    simp [extractTextContent, herr, hres, h]
    rfl

/-- Witness for C3: an absent content field fails with `No content`; an
empty content list yields the empty string. -/
theorem extract_noContent_iff_witness :
    extractTextContent ⟨1, none, some ⟨none, none⟩⟩ = .error "No content in response"
    ∧ extractTextContent ⟨1, none, some ⟨some [], none⟩⟩ = .ok "" :=
  ⟨(extract_noContent_iff ⟨1, none, some ⟨none, none⟩⟩ ⟨none, none⟩ rfl rfl).1.mpr rfl,
   (extract_noContent_iff ⟨1, none, some ⟨some [], none⟩⟩ ⟨some [], none⟩ rfl rfl).2 rfl⟩

/-- Claim C4: on a Failure-variant envelope, extraction fails with the API
error message, which contains both the rendered numeric code and the original
message text verbatim. -/
theorem extract_apiError_message (r : ExaResponse) (e : ErrorObj)
    (herr : r.error = some e) :
    extractTextContent r
      = .error ("Exa API error: " ++ toString e.code ++ " - " ++ e.message)
    ∧ strContains ("Exa API error: " ++ toString e.code ++ " - " ++ e.message)
        (toString e.code)
    ∧ strContains ("Exa API error: " ++ toString e.code ++ " - " ++ e.message)
        e.message := by
  refine ⟨by simp [extractTextContent, herr],
    ⟨"Exa API error: ", " - " ++ e.message, ?_⟩,
    ⟨"Exa API error: " ++ toString e.code ++ " - ", "", ?_⟩⟩
  · exact String.append_assoc _ _ _
  · exact (String.append_empty _).symm

/-- Witness for C4 at the envelope `{code: 400, message: "Bad request"}`. -/
theorem extract_apiError_message_witness :
    extractTextContent ⟨1, some ⟨400, "Bad request"⟩, none⟩
      = .error ("Exa API error: " ++ toString (400 : Int) ++ " - " ++ "Bad request")
    ∧ strContains ("Exa API error: " ++ toString (400 : Int) ++ " - " ++ "Bad request")
        (toString (400 : Int))
    ∧ strContains ("Exa API error: " ++ toString (400 : Int) ++ " - " ++ "Bad request")
        "Bad request" :=
  extract_apiError_message ⟨1, some ⟨400, "Bad request"⟩, none⟩ ⟨400, "Bad request"⟩ rfl

/-- Claim C5: on a Success-variant envelope with a present content list,
extraction returns the texts of the items typed `"text"`, in original order,
joined with one blank line; items of any other type are dropped without
error. -/
theorem extract_joins_text_items (r : ExaResponse) (res : ResultObj)
    (items : List ContentItem)
    (herr : r.error = none) (hres : r.result = some res)
    (hcontent : res.content = some items) :
    extractTextContent r
      = .ok (String.intercalate "\n\n"
          ((items.filter fun i => i.type == "text").map ContentItem.text)) := by
  simp [extractTextContent, herr, hres, hcontent]

/-- Witness for C5: a non-text item between two text items is dropped and
the two texts are joined with one blank line. -/
theorem extract_joins_text_items_witness :
    extractTextContent
      ⟨1, none, some ⟨some [⟨"text", "Hello"⟩, ⟨"image", "pic"⟩, ⟨"text", "World"⟩], none⟩⟩
      = .ok "Hello\n\nWorld" :=
  (extract_joins_text_items
    ⟨1, none, some ⟨some [⟨"text", "Hello"⟩, ⟨"image", "pic"⟩, ⟨"text", "World"⟩], none⟩⟩
    ⟨some [⟨"text", "Hello"⟩, ⟨"image", "pic"⟩, ⟨"text", "World"⟩], none⟩
    [⟨"text", "Hello"⟩, ⟨"image", "pic"⟩, ⟨"text", "World"⟩]
    rfl rfl rfl).trans rfl

/-- Claim C10: when a decoded envelope carries both an error object and a
result object with a non-empty content list, the error check wins and
extraction fails with the API error message. -/
theorem extract_error_priority (r : ExaResponse) (e : ErrorObj) (res : ResultObj)
    (items : List ContentItem)
    (herr : r.error = some e) (hres : r.result = some res)
    (hcontent : res.content = some items) (hne : items ≠ []) :
    extractTextContent r
      = .error ("Exa API error: " ++ toString e.code ++ " - " ++ e.message) := by
  simp [extractTextContent, herr]

/-- Witness for C10: an envelope with both an error and a non-empty content
list fails with the API error message. -/
theorem extract_error_priority_witness :
    extractTextContent ⟨1, some ⟨500, "boom"⟩, some ⟨some [⟨"text", "hi"⟩], none⟩⟩
      = .error ("Exa API error: " ++ toString (500 : Int) ++ " - " ++ "boom") :=
  extract_error_priority ⟨1, some ⟨500, "boom"⟩, some ⟨some [⟨"text", "hi"⟩], none⟩⟩
    ⟨500, "boom"⟩ ⟨some [⟨"text", "hi"⟩], none⟩ [⟨"text", "hi"⟩]
    rfl rfl rfl (by decide)

/-- Claim C8: an exchange cancelled by the 30-second deadline makes `callExa`
fail with a thrown message that contains the substring `timed out` and the
rendered elapsed-seconds value `REQUEST_TIMEOUT_MS / 1000`. -/
theorem callExa_abort_timeout (jsonParse : String → Option ExaResponse) :
    ∃ m, callExa jsonParse .abort = .error (.thrown m)
      ∧ strContains m "timed out"
      ∧ strContains m (toString (REQUEST_TIMEOUT_MS / 1000)) := by
  refine ⟨"Exa request timed out after " ++ toString (REQUEST_TIMEOUT_MS / 1000) ++ "s",
    rfl,
    ⟨"Exa request ", " after " ++ toString (REQUEST_TIMEOUT_MS / 1000) ++ "s", ?_⟩,
    ⟨"Exa request timed out after ", "s", ?_⟩⟩
  · decide
  · rfl

/-- Claim C9: within one process lifetime (the counter starts at 0 and is the
only state threaded between calls), the call ids assigned to successive
request envelopes are positive and pairwise strictly increasing in call
order, hence unique. -/
theorem callIds_strictly_increasing {P : Type} (calls : List (String × Option P)) :
    (∀ i ∈ (runCalls 0 calls).2.map (fun r => r.id), 0 < i)
    ∧ ((runCalls 0 calls).2.map (fun r => r.id)).Pairwise (· < ·) := by
  rw [runCalls_map_id]
  constructor
  · intro i hi
    rw [List.mem_range'] at hi
    obtain ⟨k, hk, hik⟩ := hi
    omega
  · exact List.pairwise_lt_range' 1 calls.length

end ExaClient
